import Mathlib

/-!
Verification of the EveryPage document-processing pipeline.

This file is a shallow embedding, in Lean 4, of the core of the
EveryPage-API-Docker-Existing repository (Python sources under `src/`):

* `models.py`              — status enumeration and result records;
* `result_aggregator.py`   — `aggregate_processing_results`;
* `resetdata_ai_adapter.py`— `parse_and_validate_ai_output`,
                             `call_resetdata_openai_api`;
* `document_converter.py`  — `convert_to_pdf_libreoffice`;
* `pdf_processor.py`       — `extract_pdf_pages_as_png`, `extract_pdf_metadata`;
* `image_processor.py`     — `encode_image_to_base64`;
* `workflow_orchestrator.py` — `_process_single_page`,
                             `process_document_stateless`.

Modelling conventions:

* A Python `str` is modelled as a `List Char` (`Str` below): Python strings
  are sequences of code points, and slicing / length in Python are
  code-point based, matching `List` operations exactly.
* Filesystem and subprocess effects are modelled by explicit environment
  records: every observation the code makes of the outside world
  (file-exists checks, subprocess exit codes and captured output, the glob
  of produced files, the bytes read from a file, the remote model's reply)
  is a field of an environment, and the embedded function is a pure
  function of that environment.  Wall-clock timestamps feed only logging
  and floating-point timing fields of the summary; those fields are
  omitted from the model (they are real-time/floating-point quantities).
* Python library calls that are not part of this repository
  (`json.loads`, `html.unescape`) are parameters of the model
  (record `PyLibs`), so theorems quantify over their behaviour.
* Exceptions are modelled with `Except`: `.error` is a raised exception.
-/

namespace EveryPage

/-- Python `str`, as a sequence of code points. -/
abbrev Str := List Char

/-- Convert a Lean string literal to the model's string type. -/
def lit (s : String) : Str := s.toList

/-- Python `str.strip()` (no argument): drop leading and trailing whitespace. -/
def pyStrip (s : Str) : Str :=
  ((s.dropWhile Char.isWhitespace).reverse.dropWhile Char.isWhitespace).reverse

/-- Python's JSON values (`json.loads` results).  Numbers are collapsed to
`Int`: no claim in this development depends on numeric payloads, and JSON
floats are not otherwise representable faithfully. -/
inductive JsonVal : Type where
  | jnull : JsonVal
  | jbool : Bool → JsonVal
  | jnum  : Int → JsonVal
  | jstr  : Str → JsonVal
  | jarr  : List JsonVal → JsonVal
  | jobj  : List (Str × JsonVal) → JsonVal

/-- `PageProcessingStatus` from `models.py`. -/
inductive PageProcessingStatus : Type where
  | success
  | mockSuccess
  | errorApi
  | errorParsing
  | errorValidation
  | errorTimeout
  | errorImageEncoding
  | errorUnknown
deriving DecidableEq

/-- A value admissible for the `data` field of `PageProcessingResult`
(pydantic type `Optional[Union[Dict[str, Any], str]]`, the `Option` layer
being kept outside): either a JSON object (Python `dict`) or a raw string. -/
inductive PageData : Type where
  | obj : List (Str × JsonVal) → PageData
  | str : Str → PageData

/-- `PageProcessingResult` from `models.py`.  The `processed_at` wall-clock
timestamp field is not modelled (real time). -/
structure PageProcessingResult : Type where
  page_number : Nat
  status : PageProcessingStatus
  data : Option PageData := none
  error_message : Option Str := none
  raw_response : Option Str := none

/-- The pydantic coercion of an arbitrary parsed JSON value into the
`data : Optional[Union[Dict[str, Any], str]]` field of
`PageProcessingResult`: a JSON object becomes a `dict`, a JSON string a
`str`, JSON `null` becomes `None`; any other value (number, boolean,
array) fails validation, which raises at construction time. -/
def toPageDataField : JsonVal → Except Unit (Option PageData)
  | .jobj fields => .ok (some (.obj fields))
  | .jstr s => .ok (some (.str s))
  | .jnull => .ok none
  | _ => .error ()

/-- The PDF metadata mapping, restricted to the keys the pipeline reads or
writes (`pages`, written by `parse_pdfinfo_output` / the image shortcut and
read by the aggregator's `.get('pages', ...)`; `source_type`, written by the
orchestrator).  `none` models absence of the key from the Python dict. -/
structure PdfMetadata : Type where
  pages : Option Int := none
  source_type : Option Str := none
deriving DecidableEq

/-- The processing-summary dictionary built by
`aggregate_processing_results` (`result_aggregator.py` lines 65-78).  The
wall-clock fields (`aggregation_timestamp`,
`total_processing_time_seconds`, `aggregation_time_seconds`) are omitted:
they are real-time floating-point quantities. -/
structure ProcessingSummary : Type where
  document_name : Str
  source_total_pages : Int
  processed_pages_count : Nat
  successful_pages_count : Nat
  mock_pages_count : Nat
  pages_with_errors_count : Nat
  processing_prompt_used_snippet : Str
  pdf_metadata : PdfMetadata

/-- `AggregatedResult` from `models.py`. -/
structure AggregatedResult : Type where
  job_id : Str
  processing_summary : ProcessingSummary
  pages : List PageProcessingResult

/-! ## Result aggregator (`result_aggregator.py`) -/

/-- One step of the counting loop of `aggregate_processing_results`
(lines 48-56): the accumulator is
(processed_pages, successful_pages, mock_pages, pages_with_errors). -/
def countStep (acc : Nat × Nat × Nat × Nat) (result : PageProcessingResult) :
    Nat × Nat × Nat × Nat :=
  match acc with
  | (processed, successful, mock, errs) =>
    match result.status with
    | .success => (processed + 1, successful + 1, mock, errs)
    | .mockSuccess => (processed + 1, successful + 1, mock + 1, errs)
    | _ => (processed + 1, successful, mock, errs + 1)

/-- The comparison key used to sort page results
(`sorted(page_results, key=lambda p: p.page_number)`, line 81). -/
def pageLe (a b : PageProcessingResult) : Prop :=
  a.page_number ≤ b.page_number

instance : DecidableRel pageLe := fun a b => by
  unfold pageLe; infer_instance

instance : IsTotal PageProcessingResult pageLe :=
  ⟨fun a b => Nat.le_total a.page_number b.page_number⟩

instance : IsTrans PageProcessingResult pageLe :=
  ⟨fun _ _ _ hab hbc => Nat.le_trans hab hbc⟩

/-- `aggregate_processing_results` (`result_aggregator.py` lines 13-90).
Python's `sorted` is a stable comparison sort by the given key; it is
modelled by `List.insertionSort` on the key order `pageLe`.  The
`start_timestamp` argument feeds only the omitted timing fields. -/
def aggregate_processing_results (job_id : Str) (document_name : Str)
    (page_results : List PageProcessingResult) (pdf_metadata : PdfMetadata)
    (user_prompt : Str) : AggregatedResult :=
  let total_pages : Nat := page_results.length
  -- reported_total_pages = pdf_metadata.get('pages', total_pages)
  let reported_total_pages : Int := pdf_metadata.pages.getD (total_pages : Int)
  let counts := page_results.foldl countStep (0, 0, 0, 0)
  -- prompt_snippet = user_prompt[:200] + "..." if len(user_prompt) > 200 else user_prompt
  let prompt_snippet : Str :=
    if user_prompt.length > 200 then user_prompt.take 200 ++ lit "..."
    else user_prompt
  let processing_summary : ProcessingSummary :=
    { document_name := document_name
      source_total_pages := reported_total_pages
      processed_pages_count := counts.1
      successful_pages_count := counts.2.1
      mock_pages_count := counts.2.2.1
      pages_with_errors_count := counts.2.2.2
      processing_prompt_used_snippet := prompt_snippet
      pdf_metadata := pdf_metadata }
  let sorted_page_results := page_results.insertionSort pageLe
  { job_id := job_id
    processing_summary := processing_summary
    pages := sorted_page_results }

/-! ## Inference adapter (`resetdata_ai_adapter.py`) -/

/-- Python standard-library functions called by
`parse_and_validate_ai_output` that are not part of this repository:
`html.unescape` and `json.loads`.  `json.loads` either returns a JSON value
or raises `JSONDecodeError` (modelled as `.error` carrying the rendered
exception text). -/
structure PyLibs : Type where
  htmlUnescape : Str → Str
  jsonLoads : Str → Except Str JsonVal

/-- Decimal rendering of a natural number (Python f-string interpolation of
an `int`). -/
def natStr (n : Nat) : Str := (toString n).toList

/-- The normalisation performed by `parse_and_validate_ai_output`
(`resetdata_ai_adapter.py` lines 90-95): strip whitespace, drop a leading
` ```json ` fence marker (7 characters) if present, drop a trailing
` ``` ` (3 characters) if present, strip whitespace again. -/
def cleanJsonText (extracted_text : Str) : Str :=
  let c1 := pyStrip extracted_text
  let c2 := if (lit "```json").isPrefixOf c1 then c1.drop 7 else c1
  let c3 := if (lit "```").isSuffixOf c2 then c2.take (c2.length - 3) else c2
  pyStrip c3

/-- `parse_and_validate_ai_output` (`resetdata_ai_adapter.py` lines
82-119).  For the structured format the cleaned text is HTML-unescaped and
JSON-parsed; empty cleaned text raises `JSONDecodeError` before the parse
(the rendered position suffix of Python's exception text is not
reproduced); any parse failure returns the original text with the
parse-error status.  For any other requested format the text is returned
verbatim.  The first component models the dynamically-typed Python return
value (a parsed JSON value, or the raw `str` as `JsonVal.jstr`). -/
def parse_and_validate_ai_output (libs : PyLibs) (extracted_text : Str)
    (page_number : Nat) (requested_format : Str) :
    JsonVal × Option PageProcessingStatus × Option Str :=
  if requested_format = lit "application/json" then
    let clean_text := cleanJsonText extracted_text
    let decoded_text := libs.htmlUnescape clean_text
    if clean_text.isEmpty then
      (.jstr extracted_text, some .errorParsing,
       some (lit "Failed to parse AI response as JSON for page "
             ++ natStr page_number ++ lit ": Extracted text is empty.."))
    else
      match libs.jsonLoads decoded_text with
      | .ok parsed_json => (parsed_json, none, none)
      | .error e =>
        (.jstr extracted_text, some .errorParsing,
         some (lit "Failed to parse AI response as JSON for page "
               ++ natStr page_number ++ lit ": " ++ e ++ lit "."))
  else
    (.jstr extracted_text, none, none)

/-! ## Paths (`pathlib` operations used by the pipeline) -/

/-- A filesystem path, split as pathlib sees it: the textual parent
directory and the final component (`name`). -/
structure PyPath : Type where
  dir : Str
  name : Str

/-- Textual rendering of a path (`str(path)` of a dir-joined path). -/
def pathStr (p : PyPath) : Str := p.dir ++ lit "/" ++ p.name

/-- Decimal rendering of a Python `int` (possibly negative). -/
def intStr (i : Int) : Str := (toString i).toList

/-- Python's substring test (`needle in hay`). -/
def containsSub (needle hay : Str) : Bool := decide (needle <:+: hay)

/-- `pathlib.PurePath.suffix`: the final `.ext` of the name, provided the
last dot is neither the first nor the last character; empty otherwise. -/
def pySuffix (name : Str) : Str :=
  let tail := name.reverse.takeWhile (fun c => c ≠ '.')
  if tail.length = name.length then []
  else
    let i := name.length - tail.length - 1
    if 0 < i ∧ i < name.length - 1 then name.drop i else []

/-- `pathlib.PurePath.stem`: the name with `pySuffix` removed. -/
def pyStem (name : Str) : Str := name.take (name.length - (pySuffix name).length)

/-! ## Document converter (`document_converter.py`) -/

/-- Everything `convert_to_pdf_libreoffice` observes of the outside world:
the input-file existence check, the outcome of `output_dir.mkdir`, the
LibreOffice subprocess result from `run_subprocess_async`, and whether the
expected output file exists after the run.  The command-line construction
(lines 52-60) only feeds the subprocess this environment models. -/
structure ConvertEnv : Type where
  inputExists : Bool
  mkdirOk : Bool
  mkdirErr : Str
  returncode : Int
  stdout : Str
  stderr : Str
  outputExistsAfter : Bool

/-- `convert_to_pdf_libreoffice` (`document_converter.py` lines 12-97).
The deletion of a partial output file on failure (lines 90-95) is a
filesystem effect with no influence on the returned triple and is not
modelled. -/
def convert_to_pdf_libreoffice (env : ConvertEnv) (input_path : PyPath)
    (output_dir : Str) : Bool × Option PyPath × Str :=
  if !env.inputExists then
    (false, none, lit "Input file not found for conversion: " ++ pathStr input_path)
  else
    let output_pdf_path : PyPath := ⟨output_dir, pyStem input_path.name ++ lit ".pdf"⟩
    if !env.mkdirOk then
      (false, none,
       lit "Failed to create output directory '" ++ output_dir ++ lit "': " ++ env.mkdirErr)
    else if env.returncode = 0 && env.outputExistsAfter then
      (true, some output_pdf_path, [])
    else
      let error_msg : Str :=
        if !env.outputExistsAfter then
          lit "Conversion failed: Output PDF file '" ++ output_pdf_path.name
            ++ lit "' was not created."
        else
          lit "Conversion command finished with error code " ++ intStr env.returncode
            ++ lit ", although output file might exist."
      let error_msg : Str :=
        if !env.stderr.isEmpty then
          if containsSub (lit "Error: source file could not be loaded") env.stderr then
            lit "Conversion failed: LibreOffice could not load the source file '"
              ++ input_path.name
              ++ lit "'. It might be corrupted or an unsupported format. Stderr: "
              ++ env.stderr
          else if containsSub (lit "javaldx failed") env.stderr then
            lit "Conversion failed: LibreOffice Java setup issue (javaldx failed). Check Java installation and LibreOffice configuration. Stderr: "
              ++ env.stderr
          else error_msg ++ lit " Stderr: " ++ env.stderr
        else if !env.stdout.isEmpty then
          error_msg ++ lit " Stdout: " ++ env.stdout
        else error_msg
      (false, none, pyStrip error_msg)

/-! ## PDF rasterizer (`pdf_processor.py`) -/

/-- Everything `extract_pdf_pages_as_png` observes: the PDF existence
check, the `mkdir` outcome, the `pdftoppm` subprocess result, and the glob
of `{prefix}-*.png` filenames found in the output directory after the
run. -/
structure RasterEnv : Type where
  pdfExists : Bool
  mkdirOk : Bool
  mkdirErr : Str
  returncode : Int
  stdout : Str
  stderr : Str
  globbedFiles : List Str

/-- Digits-to-number accumulation for the page-suffix sort key. -/
def digitsToNat (ds : Str) : Nat :=
  ds.foldl (fun a c => a * 10 + (c.toNat - '0'.toNat)) 0

/-- The numeric sort key of `extract_pdf_pages_as_png` (line 72): the
number captured by the regex `-(\d+)\.png$` on the filename, 0 when the
pattern does not match. -/
def pageNumKey (name : Str) : Nat :=
  if (lit ".png").isSuffixOf name then
    let base := name.take (name.length - 4)
    let digitsRev := base.reverse.takeWhile Char.isDigit
    if digitsRev.isEmpty then 0
    else
      match base.reverse.drop digitsRev.length with
      | '-' :: _ => digitsToNat digitsRev.reverse
      | _ => 0
  else 0

/-- The order used to sort generated screenshot filenames. -/
def pngKeyLe (a b : Str) : Prop := pageNumKey a ≤ pageNumKey b

instance : DecidableRel pngKeyLe := fun a b => by
  unfold pngKeyLe; infer_instance

/-- `extract_pdf_pages_as_png` (`pdf_processor.py` lines 15-96). -/
def extract_pdf_pages_as_png (env : RasterEnv) (pdf_path : PyPath)
    (output_dir : Str) : Bool × List Str × Str :=
  if !env.pdfExists then
    (false, [],
     lit "Input PDF file not found for screenshot generation: " ++ pathStr pdf_path)
  else if !env.mkdirOk then
    (false, [],
     lit "Failed to create screenshot output directory '" ++ output_dir
       ++ lit "': " ++ env.mkdirErr)
  else
    let generated_files := env.globbedFiles.insertionSort pngKeyLe
    if !generated_files.isEmpty then
      if env.returncode ≠ 0 then
        (true, generated_files,
         pyStrip (lit "pdftoppm finished with code " ++ intStr env.returncode
           ++ lit " but " ++ natStr generated_files.length
           ++ lit " screenshots were generated. Stderr: "
           ++ (if env.stderr.isEmpty then lit "(empty)" else env.stderr)
           ++ lit ". Stdout: "
           ++ (if env.stdout.isEmpty then lit "(empty)" else env.stdout)))
      else
        (true, generated_files, [])
    else
      let error_msg : Str :=
        lit "Screenshot generation failed: No PNG files were found for prefix '"
          ++ pathStr ⟨output_dir, pyStem pdf_path.name⟩ ++ lit "'."
      let error_msg :=
        if env.returncode ≠ 0 then
          error_msg ++ lit " pdftoppm exited with code " ++ intStr env.returncode ++ lit "."
        else error_msg
      let error_msg :=
        if !env.stderr.isEmpty then error_msg ++ lit " Stderr: " ++ env.stderr else error_msg
      let error_msg :=
        if !env.stdout.isEmpty then error_msg ++ lit " Stdout: " ++ env.stdout else error_msg
      (false, [], pyStrip error_msg)

/-! ## Image encoder (`image_processor.py`) -/

/-- The outcome of `image_path.read_bytes()` as `encode_image_to_base64`
observes it: the bytes read (each < 256), or one of the three exception
classes the function catches. -/
inductive ReadOutcome : Type where
  | ok (bytes : List Nat)
  | notFound
  | osError (e : Str)
  | unexpected (e : Str)

/-- The base64 alphabet character of a 6-bit index. -/
def b64Char (i : Nat) : Char :=
  (lit "ABCDEFGHIJKLMNOPQRSTUVWXYZabcdefghijklmnopqrstuvwxyz0123456789+/").getD i '?'

/-- The 6-bit index of a base64 alphabet character, `none` otherwise. -/
def b64Index (c : Char) : Option Nat :=
  (lit "ABCDEFGHIJKLMNOPQRSTUVWXYZabcdefghijklmnopqrstuvwxyz0123456789+/").indexOf? c

/-- `base64.b64encode`: bytes to base64 text, three bytes per four output
characters, `=`-padded. -/
def b64encodeChunks : List Nat → Str
  | [] => []
  | [a] => [b64Char (a / 4), b64Char (a % 4 * 16), '=', '=']
  | [a, b] => [b64Char (a / 4), b64Char (a % 4 * 16 + b / 16), b64Char (b % 16 * 4), '=']
  | a :: b :: c :: rest =>
      b64Char (a / 4) :: b64Char (a % 4 * 16 + b / 16) :: b64Char (b % 16 * 4 + c / 64)
        :: b64Char (c % 64) :: b64encodeChunks rest

/-- `base64.b64decode` on well-formed input: four characters per three
bytes, honouring `=` padding in the final group; malformed input is an
error.  (Python's lax discarding of non-alphabet characters before
decoding is not modelled; the development only decodes encoder output.) -/
def b64decodeChunks : Str → Except Str (List Nat)
  | [] => .ok []
  | c1 :: c2 :: c3 :: c4 :: rest =>
    match b64Index c1, b64Index c2 with
    | some i1, some i2 =>
      if c3 = '=' then
        if c4 = '=' then
          if rest.isEmpty then .ok [i1 * 4 + i2 / 16]
          else .error (lit "Invalid base64 padding")
        else .error (lit "Invalid base64 padding")
      else
        match b64Index c3 with
        | some i3 =>
          if c4 = '=' then
            if rest.isEmpty then .ok [i1 * 4 + i2 / 16, i2 % 16 * 16 + i3 / 4]
            else .error (lit "Invalid base64 padding")
          else
            match b64Index c4, b64decodeChunks rest with
            | some i4, .ok ds =>
                .ok ((i1 * 4 + i2 / 16) :: (i2 % 16 * 16 + i3 / 4) :: (i3 % 4 * 64 + i4) :: ds)
            | some _, .error e => .error e
            | none, _ => .error (lit "Invalid base64 character")
        | none => .error (lit "Invalid base64 character")
    | _, _ => .error (lit "Invalid base64 character")
  | _ => .error (lit "Invalid base64 length")

/-- `encode_image_to_base64` (`image_processor.py` lines 10-53): reads the
file and returns its base64 encoding, or one of three distinct error
messages; exactly one component of the pair is populated. -/
def encode_image_to_base64 (env : ReadOutcome) (image_path : Str) :
    Option Str × Option Str :=
  match env with
  | .ok bytes => (some (b64encodeChunks bytes), none)
  | .notFound =>
      (none, some (lit "Image file not found for encoding: " ++ image_path))
  | .osError e =>
      (none, some (lit "OS error reading image file '" ++ image_path
                   ++ lit "': " ++ e))
  | .unexpected e =>
      (none, some (lit "Unexpected error during image encoding for '"
                   ++ image_path ++ lit "': " ++ e))

/-- A result counted as successful by the aggregation loop
(`SUCCESS` or `MOCK_SUCCESS`). -/
def countedSuccessful (r : PageProcessingResult) : Bool :=
  r.status = PageProcessingStatus.success || r.status = PageProcessingStatus.mockSuccess

/-- A result counted as a mock success by the aggregation loop. -/
def countedMock (r : PageProcessingResult) : Bool :=
  r.status = PageProcessingStatus.mockSuccess

/-! ## Configuration (`models.py` `AppSettings`) -/

/-- `AppSettings` from `models.py` lines 11-22, with the defaults of the
source.  The URL fields are carried as text. -/
structure AppSettings : Type where
  resetdata_base_url : Str := lit "https://models.au-syd.resetdata.ai/v1"
  resetdata_model : Str := lit "meta-llama/Llama-4-Maverick-17B-128E-Instruct:shared"
  max_workers : Nat := 5
  process_timeout : Nat := 90
  temp_dir_base : Str := lit "/tmp/everypage_pure"
  libreoffice_command : Str := lit "libreoffice"
  pdftoppm_command : Str := lit "pdftoppm"
  pdfinfo_command : Str := lit "pdfinfo"
  log_level : Str := lit "INFO"

/-! ## JSON rendering (`json.dumps` / `str(dict)`) -/

/-- Comma-join of rendered elements (Python's default `", "` separator). -/
def joinElems (xs : List Str) : Str := List.intercalate (lit ", ") xs

mutual

/-- `json.dumps` with default options (string escaping is not reproduced;
no claim depends on the rendered text).  It also stands in for Python's
`str()` of the same values where only presence of the text matters. -/
def jsonDumps : JsonVal → Str
  | .jnull => lit "null"
  | .jbool true => lit "true"
  | .jbool false => lit "false"
  | .jnum i => intStr i
  | .jstr s => '"' :: (s ++ ['"'])
  | .jarr xs => '[' :: (joinElems (jsonDumpsList xs) ++ [']'])
  | .jobj fs => Char.ofNat 123 :: (joinElems (jsonDumpsFields fs) ++ [Char.ofNat 125])

/-- Renders each array element. -/
def jsonDumpsList : List JsonVal → List Str
  | [] => []
  | x :: xs => jsonDumps x :: jsonDumpsList xs

/-- Renders each `"key": value` pair. -/
def jsonDumpsFields : List (Str × JsonVal) → List Str
  | [] => []
  | (k, v) :: fs => ('"' :: (k ++ ['"'] ++ lit ": " ++ jsonDumps v)) :: jsonDumpsFields fs

end

/-! ## ResetData API call (`resetdata_ai_adapter.py`) -/

/-- What one page-processing unit observes of the outside world: the
outcome of reading the screenshot file, and — for each prompt text the
page could be sent with — the outcome of the remote chat-completion call
(`.ok` carries the first completion's text, `.error` the rendered
exception text). -/
structure PageEnv : Type where
  readOutcome : ReadOutcome
  apiOutcome : Str → Except Str Str

/-- The normalized response dictionary built by
`call_resetdata_openai_api` (lines 67-71):
`{"candidates": [{"content": {"parts": [{"text": content_text or ""}]}}]}`. -/
def buildNormalizedResponse (content_text : Str) : JsonVal :=
  let textObj := JsonVal.jobj [(lit "text", JsonVal.jstr content_text)]
  let contentObj := JsonVal.jobj [(lit "parts", JsonVal.jarr [textObj])]
  let candidate := JsonVal.jobj [(lit "content", contentObj)]
  JsonVal.jobj [(lit "candidates", JsonVal.jarr [candidate])]

/-- `call_resetdata_openai_api` (`resetdata_ai_adapter.py` lines 41-79).
The exception rendering `{e.__class__.__name__}: {e}` is collapsed into
the environment's error text.  The `config` argument only parameterises
the client construction the environment models. -/
def call_resetdata_openai_api (env : PageEnv) (prompt_text : Str)
    (_config : AppSettings) (llm_api_key : Str) :
    Option JsonVal × Option PageProcessingStatus × Option Str :=
  if llm_api_key.isEmpty then
    (none, some .errorApi, some (lit "Missing required ResetData LLM API key."))
  else
    match env.apiOutcome prompt_text with
    | .error e => (none, some .errorApi, some (lit "ResetData API error: " ++ e))
    | .ok content_text => (some (buildNormalizedResponse content_text), none, none)

/-- Dictionary lookup (`d[key]`), `none` on a non-dict or missing key. -/
def jsonGet (j : JsonVal) (key : Str) : Option JsonVal :=
  match j with
  | .jobj fields => fields.lookup key
  | _ => none

/-- List indexing (`l[i]`), `none` on a non-array or out of range. -/
def jsonAt (j : JsonVal) (i : Nat) : Option JsonVal :=
  match j with
  | .jarr xs => xs.get? i
  | _ => none

/-- The text extraction of `workflow_orchestrator.py` line 78:
`response_json["candidates"][0]["content"]["parts"][0]["text"]`.
Python's direct indexing raises on a malformed dictionary; the response is
always locally built by `call_resetdata_openai_api`, so the `none` cases
are unreachable there. -/
def extractCandidateText (j : JsonVal) : Option Str :=
  match jsonGet j (lit "candidates") with
  | none => none
  | some cands =>
    match jsonAt cands 0 with
    | none => none
    | some c0 =>
      match jsonGet c0 (lit "content") with
      | none => none
      | some content =>
        match jsonGet content (lit "parts") with
        | none => none
        | some parts =>
          match jsonAt parts 0 with
          | none => none
          | some p0 =>
            match jsonGet p0 (lit "text") with
            | some (.jstr t) => some t
            | _ => none

/-! ## Per-page processing unit (`workflow_orchestrator.py` `_process_single_page`) -/

/-- `_process_single_page` (`workflow_orchestrator.py` lines 35-111):
encode the screenshot, call the model, extract the completion text,
parse/validate it per the requested format, and build the
`PageProcessingResult`.  A `.error` return models an exception escaping
the task (only possible when pydantic rejects the `data` value).  The
unused `job_dir` parameter of the source is omitted. -/
def processSinglePage (libs : PyLibs) (env : PageEnv) (page_num : Nat)
    (screenshot_path : Str) (prompt_to_use : Str) (output_format : Str)
    (config : AppSettings) (llm_api_key : Str) : Except Str PageProcessingResult :=
  -- 1. Encode image
  let enc := encode_image_to_base64 env.readOutcome screenshot_path
  match enc.2 with
  | some img_err =>
    .ok { page_number := page_num, status := .errorImageEncoding,
          error_message := some (lit "Failed to encode image: " ++ img_err) }
  | none =>
    -- 2. Call ResetData API
    match call_resetdata_openai_api env prompt_to_use config llm_api_key with
    | (_, error_status, some error_msg) =>
      .ok { page_number := page_num, status := error_status.getD .errorApi,
            error_message := some error_msg }
    | (response_json, _, none) =>
      -- 3. Extract the completion text; `if not extracted_text`
      let extracted_text : Str := (response_json.bind extractCandidateText).getD []
      if extracted_text.isEmpty then
        .ok { page_number := page_num, status := .errorParsing,
              error_message := some (lit "Empty content returned from LLM"),
              raw_response := response_json.map (fun j => (jsonDumps j).take 1000) }
      else
        -- 4. Parse/validate per requested format
        let requested_format :=
          if output_format = lit "json" then lit "application/json" else lit "text/plain"
        match parse_and_validate_ai_output libs extracted_text page_num requested_format with
        | (result_data, validation_status, some validation_err) =>
          match toPageDataField result_data with
          | .ok d =>
            .ok { page_number := page_num,
                  status := validation_status.getD .errorParsing,
                  error_message := some validation_err,
                  raw_response := some (extracted_text.take 1000),
                  data := d }
          | .error _ => .error (lit "pydantic ValidationError")
        | (result_data, _, none) =>
          -- 5. Success case
          match toPageDataField result_data with
          | .ok d => .ok { page_number := page_num, status := .success, data := d }
          | .error _ => .error (lit "pydantic ValidationError")

/-! ## PDF metadata extraction (`pdf_processor.py` `extract_pdf_metadata`) -/

/-- What `extract_pdf_metadata` observes: the PDF existence check and the
`pdfinfo` subprocess result. -/
structure MetaEnv : Type where
  pdfExists : Bool
  returncode : Int
  stdout : Str
  stderr : Str

/-- `extract_pdf_metadata` (`pdf_processor.py` lines 101-140). -/
def extract_pdf_metadata (env : MetaEnv) (pdf_path : PyPath) : Bool × Str × Str :=
  if !env.pdfExists then
    (false, [],
     lit "Input PDF file not found for metadata extraction: " ++ pathStr pdf_path)
  else if env.returncode = 0 then
    (true, env.stdout, env.stderr)
  else
    let error_msg : Str :=
      lit "Metadata extraction failed: pdfinfo exited with code "
        ++ intStr env.returncode ++ lit "."
    let error_msg :=
      if !env.stderr.isEmpty then error_msg ++ lit " Stderr: " ++ env.stderr else error_msg
    let error_msg :=
      if !env.stdout.isEmpty then error_msg ++ lit " Stdout: " ++ env.stdout else error_msg
    (false, env.stdout, pyStrip error_msg)

/-! ## Stateless orchestrator (`workflow_orchestrator.py` `process_document_stateless`) -/

/-- `MAX_META_PAGES` (`workflow_orchestrator.py` line 30). -/
def MAX_META_PAGES : Nat := 3

/-- The raster-image extension set of `process_document_stateless`
line 363. -/
def imageExtensionList : List Str :=
  [lit ".png", lit ".jpg", lit ".jpeg", lit ".gif", lit ".bmp", lit ".webp"]

/-- `input_file_path.suffix.lower() in image_extensions` (line 364). -/
def isImageInput (input_file_path : PyPath) : Bool :=
  imageExtensionList.contains ((pySuffix input_file_path.name).map Char.toLower)

/-- Everything one `process_document_stateless` run observes of the
outside world.  `parsedMeta` is the result of `parse_pdfinfo_output` on
the metadata tool's stdout: that parser is a pure function whose internals
no claim concerns, so its output is supplied by the environment.  The page
environments are indexed by 0-based page position, separately for the
context pre-pass and the main pass. -/
structure OrchEnv : Type where
  inputExists : Bool
  convertEnv : ConvertEnv
  metaEnv : MetaEnv
  parsedMeta : PdfMetadata
  rasterEnv : RasterEnv
  metaPageEnv : Nat → PageEnv
  mainPageEnv : Nat → PageEnv

/-- The document-path setup of `process_document_stateless` (lines
369-390): convert to PDF, extract metadata (failure is recoverable: the
metadata mapping stays empty), tag `source_type`, rasterize (failure or an
empty page list is fatal). -/
def documentSetup (env : OrchEnv) (input_file_path : PyPath) (job_dir : Str) :
    Except Str (PdfMetadata × List Str) :=
  match convert_to_pdf_libreoffice env.convertEnv input_file_path
      (job_dir ++ lit "/converted") with
  | (convert_success, opt_pdf_path, convert_error) =>
    if !convert_success || opt_pdf_path.isNone then
      .error (lit "Document conversion failed: " ++ convert_error)
    else
      let pdf_path := opt_pdf_path.getD ⟨[], []⟩
      let meta := extract_pdf_metadata env.metaEnv pdf_path
      let pdf_metadata0 : PdfMetadata := if meta.1 then env.parsedMeta else {}
      let pdf_metadata : PdfMetadata :=
        { pdf_metadata0 with source_type := some (lit "document") }
      match extract_pdf_pages_as_png env.rasterEnv pdf_path
          (job_dir ++ lit "/screenshots") with
      | (ss_success, screenshot_paths, ss_error) =>
        if !ss_success || screenshot_paths.isEmpty then
          .error (lit "Screenshot generation failed: " ++ ss_error)
        else
          .ok (pdf_metadata, screenshot_paths)

/-- The context pre-pass task list (lines 393-411): one
`_process_single_page` invocation per page index below
`min(len(screenshot_paths), MAX_META_PAGES)`, each with the meta-prompt
template and structured output.  Exceptions are collected, not raised
(`asyncio.gather(..., return_exceptions=True)`). -/
def metaPass (libs : PyLibs) (metaPageEnv : Nat → PageEnv)
    (screenshot_paths : List Str) (config : AppSettings) (llm_api_key : Str)
    (metaPromptTemplate : Str) : List (Except Str PageProcessingResult) :=
  let meta_pages_to_scan := min screenshot_paths.length MAX_META_PAGES
  (List.range meta_pages_to_scan).map fun i =>
    processSinglePage libs (metaPageEnv i) (i + 1) (screenshot_paths.getD i [])
      metaPromptTemplate (lit "json") config llm_api_key

/-- The pre-pass filter (lines 412-415): keep only results that are
`PageProcessingResult` (not exceptions) with status success and a `dict`
payload. -/
def successfulMetaResults (results : List (Except Str PageProcessingResult)) :
    List (List (Str × JsonVal)) :=
  results.filterMap fun res =>
    match res with
    | .ok r =>
      if r.status = PageProcessingStatus.success then
        match r.data with
        | some (.obj fields) => some fields
        | _ => none
      else none
    | .error _ => none

/-- The context-block synthesis (lines 417-421): a numbered block of the
successful pre-pass outputs, stripped; empty when none succeeded. -/
def synthMetaContext (successes : List (List (Str × JsonVal))) : Str :=
  if successes.isEmpty then []
  else
    let header := lit "Document Context Summary (from first "
      ++ natStr successes.length ++ lit " page(s)):\n"
    let body := (successes.enum.map fun p =>
      lit "- Page " ++ natStr (p.1 + 1) ++ lit ": "
        ++ jsonDumps (.jobj p.2) ++ lit "\n").flatten
    pyStrip (header ++ body)

/-- The main pass (lines 423-447): one `_process_single_page` per rendered
page, with the final prompt and the job's output format.  Results are
collected as tasks complete; the completion order is scheduler-dependent,
and the model fixes the launch order (the aggregated output is
insensitive to it: counts are order-free and pages are re-sorted).  An
exception escaping a page task propagates (`await future` has no handler
in the stateless variant). -/
def mainPass (libs : PyLibs) (mainPageEnv : Nat → PageEnv)
    (screenshot_paths : List Str) (final_user_prompt : Str) (output_format : Str)
    (config : AppSettings) (llm_api_key : Str) :
    Except Str (List PageProcessingResult) :=
  (List.range screenshot_paths.length).mapM fun i =>
    processSinglePage libs (mainPageEnv i) (i + 1) (screenshot_paths.getD i [])
      final_user_prompt output_format config llm_api_key

/-- `process_document_stateless` (`workflow_orchestrator.py` lines
339-476).  `metaPromptTemplate` models the module constant
`META_PROMPT_TEMPLATE`, read at import time from `prompts/meta_prompt.txt`
(a data file outside `src/`; no claim depends on its content).
`start_timestamp` is the wall-clock start in whole seconds
(`str(int(start_timestamp))` is the job id).  The `finally:` cleanup
(lines 463-476) only performs filesystem deletions and never alters the
returned value or exception, so it is not modelled. -/
def process_document_stateless (libs : PyLibs) (env : OrchEnv)
    (input_file_path : PyPath) (user_prompt : Str) (output_format : Str)
    (use_meta_intelligence : Bool) (config : AppSettings) (llm_api_key : Str)
    (job_dir : Str) (metaPromptTemplate : Str) (start_timestamp : Int) :
    Except Str AggregatedResult :=
  -- Validation
  if !env.inputExists then
    .error (lit "Input file not found: " ++ pathStr input_file_path)
  else
    let is_image_input := isImageInput input_file_path
    let setup : Except Str (PdfMetadata × List Str) :=
      if is_image_input then
        .ok ({ pages := some 1, source_type := some (lit "image") },
             [pathStr input_file_path])
      else documentSetup env input_file_path job_dir
    match setup with
    | .error e => .error e
    | .ok (pdf_metadata, screenshot_paths) =>
      -- Optional meta pass
      let meta_context : Str :=
        if use_meta_intelligence && !is_image_input then
          synthMetaContext (successfulMetaResults
            (metaPass libs env.metaPageEnv screenshot_paths config llm_api_key
              metaPromptTemplate))
        else []
      -- Main pass
      let final_user_prompt :=
        if !meta_context.isEmpty then
          lit "DOCUMENT CONTEXT:\n" ++ meta_context
            ++ lit "\n\n---\n\nUSER TASK:\n" ++ user_prompt
        else user_prompt
      match mainPass libs env.mainPageEnv screenshot_paths final_user_prompt
          output_format config llm_api_key with
      | .error e => .error e
      | .ok page_results =>
        -- Aggregate
        if page_results.isEmpty && screenshot_paths.length > 0 then
          .error (lit "Aggregation failed: No page processing results were collected.")
        else
          .ok (aggregate_processing_results (intStr start_timestamp)
                input_file_path.name page_results pdf_metadata user_prompt)

/-- The formalisation of the C7 claim's invariant over one page outcome:
exactly one of payload-present / error-status, success always carries a
payload, and among error statuses only image-encoding and parse errors
carry the unparsed raw text. -/
def pageOutcomeClaimInvariant (r : PageProcessingResult) : Prop :=
  ((r.status = PageProcessingStatus.success
      ∨ r.status = PageProcessingStatus.mockSuccess) → r.data.isSome = true)
  ∧ (¬(r.status = PageProcessingStatus.success
      ∨ r.status = PageProcessingStatus.mockSuccess) →
      if r.status = PageProcessingStatus.errorImageEncoding
          ∨ r.status = PageProcessingStatus.errorParsing
      then r.raw_response.isSome = true
      else r.data = none)

/-- Characterisation of the counting loop of `aggregate_processing_results`:
every result is counted once; successes and mock successes increment the
success counter, mock successes the mock counter, everything else the error
counter. -/
theorem foldl_countStep (l : List PageProcessingResult) (p s m e : Nat) :
    l.foldl countStep (p, s, m, e) =
      (p + l.length,
       s + l.countP countedSuccessful,
       m + l.countP countedMock,
       e + l.countP (fun r => !countedSuccessful r)) := by
  induction l generalizing p s m e with
  | nil => simp
  | cons r t ih =>
    cases hstat : r.status <;>
      simp [countStep, hstat, ih, List.countP_cons, countedSuccessful, countedMock] <;>
      omega

/-- A predicate and its negation together count every element of a list. -/
theorem countP_add_not {α : Type} (p : α → Bool) (l : List α) :
    l.countP p + l.countP (fun a => !p a) = l.length := by
  induction l with
  | nil => simp
  | cons a t ih =>
    by_cases h : p a <;> simp [List.countP_cons, h] <;> omega

/-- C1 (counterexample): the claim asserts that for every list of page
outcomes the aggregated pages list is sorted strictly ascending by page
number.  With two outcomes that share page number 1, the output contains
two entries with the same page number, so it is not strictly ascending. -/
theorem c1_counterexample :
    ¬ ((aggregate_processing_results (lit "job-1") (lit "doc.pdf")
          [{ page_number := 1, status := .success, data := some (.str (lit "ok")) },
           { page_number := 1, status := .errorApi, error_message := some (lit "boom") }]
          ⟨none, none⟩ (lit "analyze")).pages.Pairwise
        (fun a b => a.page_number < b.page_number)) := by
  intro h
  simp [aggregate_processing_results, List.insertionSort, List.orderedInsert, pageLe] at h

/-- C1 (amended): for every list of page outcomes, `aggregate_processing_results`
returns a pages list sorted in non-decreasing order of page number —
strictly ascending whenever the input page numbers are pairwise distinct —
and the summary counts satisfy `len(pages) = processed_pages_count`,
`successful_pages_count + pages_with_errors_count = processed_pages_count`
(mock successes counted as successful) and
`mock_pages_count ≤ successful_pages_count`. -/
theorem c1_aggregate_sorted_and_counts (job doc : Str)
    (results : List PageProcessingResult) (meta : PdfMetadata) (prompt : Str) :
    List.Sorted pageLe (aggregate_processing_results job doc results meta prompt).pages
    ∧ ((results.map PageProcessingResult.page_number).Nodup →
        (aggregate_processing_results job doc results meta prompt).pages.Pairwise
          (fun a b => a.page_number < b.page_number))
    ∧ (aggregate_processing_results job doc results meta prompt).pages.length
        = (aggregate_processing_results job doc results meta
            prompt).processing_summary.processed_pages_count
    ∧ (aggregate_processing_results job doc results meta
          prompt).processing_summary.successful_pages_count
        + (aggregate_processing_results job doc results meta
            prompt).processing_summary.pages_with_errors_count
        = (aggregate_processing_results job doc results meta
            prompt).processing_summary.processed_pages_count
    ∧ (aggregate_processing_results job doc results meta
          prompt).processing_summary.mock_pages_count
        ≤ (aggregate_processing_results job doc results meta
            prompt).processing_summary.successful_pages_count := by
  have hpages : (aggregate_processing_results job doc results meta prompt).pages
      = results.insertionSort pageLe := rfl
  have hc : results.foldl countStep (0, 0, 0, 0)
      = (results.length, results.countP countedSuccessful,
         results.countP countedMock,
         results.countP (fun r => !countedSuccessful r)) := by
    simpa using foldl_countStep results 0 0 0 0
  have hproc : (aggregate_processing_results job doc results meta
      prompt).processing_summary.processed_pages_count = results.length := by
    simp only [aggregate_processing_results, hc]
  have hsucc : (aggregate_processing_results job doc results meta
      prompt).processing_summary.successful_pages_count
      = results.countP countedSuccessful := by
    simp only [aggregate_processing_results, hc]
  have hmock : (aggregate_processing_results job doc results meta
      prompt).processing_summary.mock_pages_count = results.countP countedMock := by
    simp only [aggregate_processing_results, hc]
  have herr : (aggregate_processing_results job doc results meta
      prompt).processing_summary.pages_with_errors_count
      = results.countP (fun r => !countedSuccessful r) := by
    simp only [aggregate_processing_results, hc]
  have hsorted : List.Sorted pageLe
      (aggregate_processing_results job doc results meta prompt).pages := by
    rw [hpages]; exact List.sorted_insertionSort pageLe results
  refine ⟨hsorted, ?_, ?_, ?_, ?_⟩
  · intro hnodup
    have hperm : List.Perm (aggregate_processing_results job doc results meta prompt).pages
        results := by rw [hpages]; exact List.perm_insertionSort pageLe results
    have hnodup' : ((aggregate_processing_results job doc results meta
        prompt).pages.map PageProcessingResult.page_number).Nodup :=
      ((hperm.map PageProcessingResult.page_number).nodup_iff).mpr hnodup
    have hne : (aggregate_processing_results job doc results meta prompt).pages.Pairwise
        (fun a b => a.page_number ≠ b.page_number) := by
      unfold List.Nodup at hnodup'
      rw [List.pairwise_map] at hnodup'
      exact hnodup'
    exact (hsorted.and hne).imp fun h => Nat.lt_of_le_of_ne h.1 h.2
  · rw [hpages, hproc]
    exact (List.perm_insertionSort pageLe results).length_eq
  · rw [hsucc, herr, hproc]
    exact countP_add_not countedSuccessful results
  · rw [hmock, hsucc]
    refine List.countP_mono_left fun r _ hm => ?_
    simp only [countedMock, decide_eq_true_eq] at hm
    simp [countedSuccessful, hm]

/-- Witness for `c1_aggregate_sorted_and_counts`: on a concrete out-of-order
input with distinct page numbers, the strict-ascending conclusion holds. -/
theorem c1_aggregate_sorted_and_counts_witness :
    (aggregate_processing_results (lit "j") (lit "d")
        [{ page_number := 2, status := .mockSuccess, data := some (.obj []) },
         { page_number := 1, status := .success, data := some (.str (lit "t")) }]
        ⟨some 2, some (lit "document")⟩ (lit "p")).pages.Pairwise
      (fun a b => a.page_number < b.page_number) :=
  (c1_aggregate_sorted_and_counts (lit "j") (lit "d")
      [{ page_number := 2, status := .mockSuccess, data := some (.obj []) },
       { page_number := 1, status := .success, data := some (.str (lit "t")) }]
      ⟨some 2, some (lit "document")⟩ (lit "p")).2.1 (by decide)

/-- C9 (counterexample): the claim asserts the prompt snippet embedded in
the summary is at most 200 characters.  For a 201-character prompt the
code computes `user_prompt[:200] + "..."`, a 203-character snippet. -/
theorem c9_counterexample :
    ¬ ((aggregate_processing_results (lit "j") (lit "d") [] ⟨none, none⟩
          (List.replicate 201
            'a')).processing_summary.processing_prompt_used_snippet.length ≤ 200) := by
  intro h
  have hsnip : (aggregate_processing_results (lit "j") (lit "d") [] ⟨none, none⟩
      (List.replicate 201 'a')).processing_summary.processing_prompt_used_snippet
      = (List.replicate 201 'a').take 200 ++ lit "..." := by
    simp only [aggregate_processing_results]
    rw [if_pos (by rw [List.length_replicate]; omega)]
  have h3 : (lit "...").length = 3 := rfl
  rw [hsnip] at h
  rw [List.length_append, List.length_take, List.length_replicate, h3] at h
  omega

/-- C9 (amended): the prompt snippet embedded in the summary is at most 203
characters: prompts of at most 200 characters are embedded verbatim, and
longer prompts are truncated to their first 200 characters followed by
`"..."`, giving exactly 203 characters. -/
theorem c9_snippet_bounds (job doc : Str) (results : List PageProcessingResult)
    (meta : PdfMetadata) (prompt : Str) :
    (aggregate_processing_results job doc results meta
        prompt).processing_summary.processing_prompt_used_snippet.length ≤ 203
    ∧ (prompt.length ≤ 200 →
        (aggregate_processing_results job doc results meta
          prompt).processing_summary.processing_prompt_used_snippet = prompt)
    ∧ (200 < prompt.length →
        (aggregate_processing_results job doc results meta
            prompt).processing_summary.processing_prompt_used_snippet
          = prompt.take 200 ++ lit "..."
        ∧ (aggregate_processing_results job doc results meta
            prompt).processing_summary.processing_prompt_used_snippet.length = 203) := by
  have hsnip : (aggregate_processing_results job doc results meta
      prompt).processing_summary.processing_prompt_used_snippet
      = if prompt.length > 200 then prompt.take 200 ++ lit "..." else prompt := by
    simp only [aggregate_processing_results]
  by_cases h : 200 < prompt.length
  · have htake : (prompt.take 200).length = 200 := by
      rw [List.length_take]; omega
    have hlen : (prompt.take 200 ++ lit "...").length = 203 := by
      rw [List.length_append, htake]; rfl
    refine ⟨?_, fun hle => by omega, fun _ => ?_⟩
    · rw [hsnip, if_pos h, hlen]
    · rw [hsnip, if_pos h]
      exact ⟨rfl, hlen⟩
  · refine ⟨?_, fun _ => by rw [hsnip, if_neg h], fun hgt => absurd hgt h⟩
    rw [hsnip, if_neg h]
    omega

/-- Witness for `c9_snippet_bounds`: a concrete 250-character prompt yields
a snippet of exactly 203 characters. -/
theorem c9_snippet_bounds_witness :
    (aggregate_processing_results (lit "j") (lit "d") [] ⟨none, none⟩
        (List.replicate 250
          'b')).processing_summary.processing_prompt_used_snippet.length = 203 :=
  ((c9_snippet_bounds (lit "j") (lit "d") [] ⟨none, none⟩
      (List.replicate 250 'b')).2.2 (by rw [List.length_replicate]; omega)).2

/-- C2: for every library behaviour, input text and page number, with the
structured format `parse_and_validate_ai_output` strips code fences,
HTML-unescapes and strictly JSON-parses the text, returning the parsed
value with no error on success; text that is empty after stripping yields
a parse error (never a success with null data); any parse failure returns
the original raw text with the parse-error status; with any other
requested format the text is returned verbatim with no parse attempt. -/
theorem c2_parse_and_validate_ai_output (libs : PyLibs) (text : Str) (page : Nat) :
    (∀ v : JsonVal, ¬(cleanJsonText text).isEmpty →
        libs.jsonLoads (libs.htmlUnescape (cleanJsonText text)) = .ok v →
        parse_and_validate_ai_output libs text page (lit "application/json")
          = (v, none, none))
    ∧ ((cleanJsonText text).isEmpty →
        parse_and_validate_ai_output libs text page (lit "application/json")
          = (.jstr text, some .errorParsing,
             some (lit "Failed to parse AI response as JSON for page "
                   ++ natStr page ++ lit ": Extracted text is empty..")))
    ∧ (∀ e : Str, ¬(cleanJsonText text).isEmpty →
        libs.jsonLoads (libs.htmlUnescape (cleanJsonText text)) = .error e →
        parse_and_validate_ai_output libs text page (lit "application/json")
          = (.jstr text, some .errorParsing,
             some (lit "Failed to parse AI response as JSON for page "
                   ++ natStr page ++ lit ": " ++ e ++ lit ".")))
    ∧ (∀ fmt : Str, fmt ≠ lit "application/json" →
        parse_and_validate_ai_output libs text page fmt
          = (.jstr text, none, none)) := by
  refine ⟨fun v hne hok => ?_, fun hemp => ?_, fun e hne herr => ?_, fun fmt hfmt => ?_⟩
  · simp [parse_and_validate_ai_output, hne, hok]
  · simp [parse_and_validate_ai_output, hemp]
  · simp [parse_and_validate_ai_output, hne, herr]
  · simp [parse_and_validate_ai_output, hfmt]

/-- Witness for `c2_parse_and_validate_ai_output`: with a JSON parser that
accepts exactly the text `ok`, the fenced input ` ```json\nok\n``` `
parses to the object, and with the raw-text format an arbitrary non-JSON
text is returned verbatim with no error. -/
theorem c2_parse_and_validate_ai_output_witness :
    parse_and_validate_ai_output
        ⟨id, fun s => if s = lit "ok" then .ok (.jobj []) else .error (lit "bad")⟩
        (lit "```json\nok\n```") 1 (lit "application/json")
      = (.jobj [], none, none)
    ∧ parse_and_validate_ai_output
        ⟨id, fun s => if s = lit "ok" then .ok (.jobj []) else .error (lit "bad")⟩
        (lit "certainly not json") 2 (lit "text/plain")
      = (.jstr (lit "certainly not json"), none, none) :=
  ⟨(c2_parse_and_validate_ai_output
      ⟨id, fun s => if s = lit "ok" then .ok (.jobj []) else .error (lit "bad")⟩
      (lit "```json\nok\n```") 1).1 (.jobj []) (by decide) rfl,
   (c2_parse_and_validate_ai_output
      ⟨id, fun s => if s = lit "ok" then .ok (.jobj []) else .error (lit "bad")⟩
      (lit "certainly not json") 2).2.2.2 (lit "text/plain") (by decide)⟩

/-- C3: whenever `convert_to_pdf_libreoffice` actually runs the conversion
process (input exists and the output directory could be created), it
reports success if and only if the process exited with code 0 and the
expected output file — same stem, `.pdf` extension, in the output
directory — exists; exit code 0 with the output file missing is reported
as failure with no path. -/
theorem c3_convert_success_iff (env : ConvertEnv) (input_path : PyPath)
    (output_dir : Str) (hin : env.inputExists = true) (hmk : env.mkdirOk = true) :
    ((convert_to_pdf_libreoffice env input_path output_dir).1 = true
        ↔ env.returncode = 0 ∧ env.outputExistsAfter = true)
    ∧ (env.returncode = 0 → env.outputExistsAfter = false →
        (convert_to_pdf_libreoffice env input_path output_dir).1 = false
        ∧ (convert_to_pdf_libreoffice env input_path output_dir).2.1 = none)
    ∧ (env.returncode = 0 → env.outputExistsAfter = true →
        (convert_to_pdf_libreoffice env input_path output_dir).2.1
          = some ⟨output_dir, pyStem input_path.name ++ lit ".pdf"⟩) := by
  by_cases hrc : env.returncode = 0 <;> by_cases hout : env.outputExistsAfter = true <;>
    simp_all [convert_to_pdf_libreoffice]

/-- Witness for `c3_convert_success_iff`: a run with exit code 0 whose
expected output file is missing is reported as a failure with no path. -/
theorem c3_convert_success_iff_witness :
    (convert_to_pdf_libreoffice
        ⟨true, true, [], 0, [], [], false⟩ ⟨lit "/in", lit "doc.docx"⟩ (lit "/out")).1 = false
    ∧ (convert_to_pdf_libreoffice
        ⟨true, true, [], 0, [], [], false⟩ ⟨lit "/in", lit "doc.docx"⟩ (lit "/out")).2.1 = none :=
  (c3_convert_success_iff ⟨true, true, [], 0, [], [], false⟩
      ⟨lit "/in", lit "doc.docx"⟩ (lit "/out") rfl rfl).2.1 rfl rfl

/-- C4: whenever `extract_pdf_pages_as_png` actually runs the tool (PDF
exists and the output directory could be created), the run succeeds if and
only if at least one matching PNG file was found afterwards — even when
the exit code is non-zero — and zero matching files yield failure with an
empty path list regardless of exit code. -/
theorem c4_raster_success_iff_files (env : RasterEnv) (pdf_path : PyPath)
    (output_dir : Str) (hpdf : env.pdfExists = true) (hmk : env.mkdirOk = true) :
    ((extract_pdf_pages_as_png env pdf_path output_dir).1 = true
        ↔ env.globbedFiles ≠ [])
    ∧ (env.globbedFiles = [] →
        (extract_pdf_pages_as_png env pdf_path output_dir).2.1 = [])
    ∧ (env.globbedFiles ≠ [] →
        (extract_pdf_pages_as_png env pdf_path output_dir).2.1
          = env.globbedFiles.insertionSort pngKeyLe) := by
  obtain ⟨pe, mk, me, rc, so, se, gf⟩ := env
  have hlen : (gf.insertionSort pngKeyLe).length = gf.length :=
    (List.perm_insertionSort pngKeyLe gf).length_eq
  by_cases hg : gf = []
  · subst hg
    by_cases hrc : rc = 0 <;> simp_all [extract_pdf_pages_as_png]
  · have hne2 : (gf.insertionSort pngKeyLe).isEmpty = false := by
      rcases h : gf.insertionSort pngKeyLe with _ | ⟨a, t⟩
      · exfalso
        rw [h] at hlen
        exact hg (List.length_eq_zero.mp hlen.symm)
      · rfl
    by_cases hrc : rc = 0 <;> simp_all [extract_pdf_pages_as_png]

/-- Witness for `c4_raster_success_iff_files`: a run with exit code 99
that still produced one matching file is a success, and a run with exit
code 0 that produced no files is a failure with an empty list. -/
theorem c4_raster_success_iff_files_witness :
    (extract_pdf_pages_as_png
        ⟨true, true, [], 99, [], lit "font warning", [lit "doc-1.png"]⟩
        ⟨lit "/job", lit "doc.pdf"⟩ (lit "/shots")).1 = true
    ∧ (extract_pdf_pages_as_png
        ⟨true, true, [], 0, [], [], []⟩
        ⟨lit "/job", lit "doc.pdf"⟩ (lit "/shots")).1 = false
    ∧ (extract_pdf_pages_as_png
        ⟨true, true, [], 0, [], [], []⟩
        ⟨lit "/job", lit "doc.pdf"⟩ (lit "/shots")).2.1 = [] :=
  by
  refine ⟨?_, ?_, ?_⟩
  · exact (c4_raster_success_iff_files
      ⟨true, true, [], 99, [], lit "font warning", [lit "doc-1.png"]⟩
      ⟨lit "/job", lit "doc.pdf"⟩ (lit "/shots") rfl rfl).1.mpr (by decide)
  · have h := (c4_raster_success_iff_files ⟨true, true, [], 0, [], [], []⟩
      ⟨lit "/job", lit "doc.pdf"⟩ (lit "/shots") rfl rfl).1
    simpa using h
  · exact (c4_raster_success_iff_files ⟨true, true, [], 0, [], [], []⟩
      ⟨lit "/job", lit "doc.pdf"⟩ (lit "/shots") rfl rfl).2.1 rfl

/-- The base64 index table inverts the alphabet table on 6-bit values. -/
theorem b64Index_b64Char (i : Nat) (h : i < 64) : b64Index (b64Char i) = some i := by
  have hall : ∀ j : Fin 64, b64Index (b64Char j.val) = some j.val := by decide
  exact hall ⟨i, h⟩

/-- No alphabet character is the padding character. -/
theorem b64Char_ne_pad (i : Nat) (h : i < 64) : b64Char i ≠ '=' := by
  have hall : ∀ j : Fin 64, b64Char j.val ≠ '=' := by decide
  exact hall ⟨i, h⟩

/-- Decoding inverts encoding on byte lists. -/
theorem b64_roundtrip : ∀ bs : List Nat, (∀ x ∈ bs, x < 256) →
    b64decodeChunks (b64encodeChunks bs) = Except.ok bs
  | [], _ => rfl
  | [a], h => by
    have ha : a < 256 := h a (by simp)
    have h1 : a / 4 < 64 := by omega
    have h2 : a % 4 * 16 < 64 := by omega
    simp [b64encodeChunks, b64decodeChunks,
      b64Index_b64Char _ h1, b64Index_b64Char _ h2]
    omega
  | [a, b], h => by
    have ha : a < 256 := h a (by simp)
    have hb : b < 256 := h b (by simp)
    have h1 : a / 4 < 64 := by omega
    have h2 : a % 4 * 16 + b / 16 < 64 := by omega
    have h3 : b % 16 * 4 < 64 := by omega
    simp [b64encodeChunks, b64decodeChunks, b64Index_b64Char _ h1,
      b64Index_b64Char _ h2, b64Index_b64Char _ h3, b64Char_ne_pad _ h3]
    constructor <;> omega
  | a :: b :: c :: rest, h => by
    have ha : a < 256 := h a (by simp)
    have hb : b < 256 := h b (by simp)
    have hc : c < 256 := h c (by simp)
    have ih : b64decodeChunks (b64encodeChunks rest) = Except.ok rest :=
      b64_roundtrip rest (fun x hx => h x (by simp [hx]))
    have h1 : a / 4 < 64 := by omega
    have h2 : a % 4 * 16 + b / 16 < 64 := by omega
    have h3 : b % 16 * 4 + c / 64 < 64 := by omega
    have h4 : c % 64 < 64 := by omega
    simp [b64encodeChunks, b64decodeChunks, b64Index_b64Char _ h1,
      b64Index_b64Char _ h2, b64Index_b64Char _ h3, b64Index_b64Char _ h4,
      b64Char_ne_pad _ h3, b64Char_ne_pad _ h4, ih]
    refine ⟨by omega, by omega, by omega⟩

/-- C10: `encode_image_to_base64` returns exactly one of an encoded string
or an error message, and on success the returned base64 text decodes back
to exactly the original file bytes. -/
theorem c10_encode_image_roundtrip (env : ReadOutcome) (p : Str) :
    ((encode_image_to_base64 env p).1.isSome ∧ (encode_image_to_base64 env p).2 = none
      ∨ (encode_image_to_base64 env p).1 = none ∧ (encode_image_to_base64 env p).2.isSome)
    ∧ (∀ bytes : List Nat, env = .ok bytes → (∀ x ∈ bytes, x < 256) →
        encode_image_to_base64 env p = (some (b64encodeChunks bytes), none)
        ∧ b64decodeChunks (b64encodeChunks bytes) = .ok bytes) := by
  constructor
  · cases env <;> simp [encode_image_to_base64]
  · intro bytes heq hb
    subst heq
    exact ⟨rfl, b64_roundtrip bytes hb⟩

/-- Witness for `c10_encode_image_roundtrip`: the PNG header bytes encode
successfully (no error) and decode back to themselves. -/
theorem c10_encode_image_roundtrip_witness :
    encode_image_to_base64 (.ok [137, 80, 78, 71]) (lit "/t/x.png")
      = (some (b64encodeChunks [137, 80, 78, 71]), none)
    ∧ b64decodeChunks (b64encodeChunks [137, 80, 78, 71]) = .ok [137, 80, 78, 71] :=
  (c10_encode_image_roundtrip (.ok [137, 80, 78, 71])
      (lit "/t/x.png")).2 [137, 80, 78, 71] rfl (by decide)

/-- Sorting a non-empty list yields a non-empty list. -/
theorem insertionSort_isEmpty_eq {α : Type} (r : α → α → Prop) [DecidableRel r]
    (l : List α) : (l.insertionSort r).isEmpty = l.isEmpty := by
  have hlen : (l.insertionSort r).length = l.length :=
    (List.perm_insertionSort r l).length_eq
  cases l with
  | nil => rfl
  | cons a t =>
    rcases heq : (a :: t).insertionSort r with _ | ⟨b, u⟩
    · exfalso
      rw [heq] at hlen
      simp at hlen
    · rfl

/-- A mapM over `Except` succeeds when every element does, preserving
length. -/
theorem mapM_ok_of_forall {α β : Type} (f : α → Except Str β) (l : List α)
    (h : ∀ a ∈ l, ∃ b, f a = .ok b) :
    ∃ bs, l.mapM f = .ok bs ∧ bs.length = l.length := by
  induction l with
  | nil => exact ⟨[], rfl, rfl⟩
  | cons a t ih =>
    obtain ⟨b, hb⟩ := h a (by simp)
    obtain ⟨bs, hbs, hlen⟩ := ih (fun x hx => h x (by simp [hx]))
    refine ⟨b :: bs, ?_, by simp [hlen]⟩
    rw [List.mapM_cons, hb, hbs]
    rfl

/-- Evaluation of the converter when the process runs and succeeds. -/
theorem convert_success_eval (env : ConvertEnv) (ip : PyPath) (od : Str)
    (h1 : env.inputExists = true) (h2 : env.mkdirOk = true)
    (h3 : env.returncode = 0) (h4 : env.outputExistsAfter = true) :
    convert_to_pdf_libreoffice env ip od
      = (true, some ⟨od, pyStem ip.name ++ lit ".pdf"⟩, []) := by
  obtain ⟨ie, mo, me, rc, so, se, oe⟩ := env
  subst h1 h2 h3 h4
  simp [convert_to_pdf_libreoffice]

/-- Evaluation of the rasterizer when it runs and files were produced. -/
theorem raster_success_eval (env : RasterEnv) (p : PyPath) (od : Str)
    (h1 : env.pdfExists = true) (h2 : env.mkdirOk = true)
    (h3 : env.globbedFiles ≠ []) :
    (extract_pdf_pages_as_png env p od).1 = true
    ∧ (extract_pdf_pages_as_png env p od).2.1
        = env.globbedFiles.insertionSort pngKeyLe := by
  obtain ⟨pe, mo, me, rc, so, se, gf⟩ := env
  subst h1 h2
  have hne : (gf.insertionSort pngKeyLe).isEmpty = false := by
    rw [insertionSort_isEmpty_eq]
    simpa [List.isEmpty_iff] using h3
  by_cases hrc : rc = 0 <;> simp_all [extract_pdf_pages_as_png]

/-- The metadata extractor fails whenever `pdfinfo` exits non-zero. -/
theorem meta_fail_eval (env : MetaEnv) (p : PyPath) (h : env.returncode ≠ 0) :
    (extract_pdf_metadata env p).1 = false := by
  obtain ⟨pe, rc, so, se⟩ := env
  by_cases hpe : pe = true <;> simp_all [extract_pdf_metadata]

/-- Evaluation of the document-path setup when conversion and
rasterization succeed: the metadata mapping depends on the metadata
tool's success, the screenshots are the sorted glob. -/
theorem documentSetup_eval (env : OrchEnv) (ip : PyPath) (jd : Str)
    (hc1 : env.convertEnv.inputExists = true) (hc2 : env.convertEnv.mkdirOk = true)
    (hc3 : env.convertEnv.returncode = 0) (hc4 : env.convertEnv.outputExistsAfter = true)
    (hr1 : env.rasterEnv.pdfExists = true) (hr2 : env.rasterEnv.mkdirOk = true)
    (hr3 : env.rasterEnv.globbedFiles ≠ []) :
    documentSetup env ip jd
      = .ok ((if (extract_pdf_metadata env.metaEnv
                ⟨jd ++ lit "/converted", pyStem ip.name ++ lit ".pdf"⟩).1
              then { env.parsedMeta with source_type := some (lit "document") }
              else ⟨none, some (lit "document")⟩),
             env.rasterEnv.globbedFiles.insertionSort pngKeyLe) := by
  obtain ⟨hs1, hs2⟩ := raster_success_eval env.rasterEnv
    ⟨jd ++ lit "/converted", pyStem ip.name ++ lit ".pdf"⟩ (jd ++ lit "/screenshots")
    hr1 hr2 hr3
  have hne : (env.rasterEnv.globbedFiles.insertionSort pngKeyLe).isEmpty = false := by
    rw [insertionSort_isEmpty_eq]
    simpa [List.isEmpty_iff] using hr3
  simp only [documentSetup, convert_success_eval env.convertEnv ip
    (jd ++ lit "/converted") hc1 hc2 hc3 hc4]
  by_cases hmeta : (extract_pdf_metadata env.metaEnv
      ⟨jd ++ lit "/converted", pyStem ip.name ++ lit ".pdf"⟩).1 = true <;>
    simp_all

/-- The aggregator embeds the metadata mapping verbatim. -/
theorem aggregate_meta_eq (jid dn : Str) (rs : List PageProcessingResult)
    (meta : PdfMetadata) (up : Str) :
    (aggregate_processing_results jid dn rs meta up).processing_summary.pdf_metadata
      = meta := by
  simp only [aggregate_processing_results]

/-- The aggregator's pages list has one entry per input outcome. -/
theorem aggregate_pages_length (jid dn : Str) (rs : List PageProcessingResult)
    (meta : PdfMetadata) (up : Str) :
    (aggregate_processing_results jid dn rs meta up).pages.length = rs.length := by
  simp only [aggregate_processing_results]
  exact (List.perm_insertionSort pageLe rs).length_eq

/-- The aggregator's reported page count is `pages` from the metadata when
present, the number of outcomes otherwise. -/
theorem aggregate_source_total (jid dn : Str) (rs : List PageProcessingResult)
    (meta : PdfMetadata) (up : Str) :
    (aggregate_processing_results jid dn rs meta up).processing_summary.source_total_pages
      = meta.pages.getD (rs.length : Int) := by
  simp only [aggregate_processing_results]

/-- The main pass succeeds whenever every page task settles without an
exception, with one result per page. -/
theorem mainPass_ok (libs : PyLibs) (f : Nat → PageEnv) (shots : List Str)
    (fp fmt : Str) (cfg : AppSettings) (key : Str)
    (h : ∀ i path prompt, ∃ r,
        processSinglePage libs (f i) (i + 1) path prompt fmt cfg key = .ok r) :
    ∃ rs, mainPass libs f shots fp fmt cfg key = .ok rs
      ∧ rs.length = shots.length := by
  unfold mainPass
  obtain ⟨rs, hrs, hlen⟩ :=
    mapM_ok_of_forall _ (List.range shots.length)
      (fun a _ => h a (shots.getD a []) fp)
  exact ⟨rs, hrs, by simpa using hlen⟩

/-- A run of the stateless orchestrator on the document path returns an
aggregated result whenever conversion and rasterization succeed and every
main-pass page task settles without an exception; the metadata mapping and
fallback page count are determined by the setup. -/
theorem stateless_doc_ok (libs : PyLibs) (env : OrchEnv) (ip : PyPath)
    (up fmt : Str) (m : Bool) (cfg : AppSettings) (key jd tmpl : Str) (ts : Int)
    (md : PdfMetadata) (shots : List Str)
    (hin : env.inputExists = true)
    (himg : isImageInput ip = false)
    (hsetup : documentSetup env ip jd = .ok (md, shots))
    (hmain : ∀ i path prompt, ∃ r,
        processSinglePage libs (env.mainPageEnv i) (i + 1) path prompt fmt cfg key
          = .ok r) :
    ∃ res, process_document_stateless libs env ip up fmt m cfg key jd tmpl ts
        = .ok res
      ∧ res.processing_summary.pdf_metadata = md
      ∧ res.pages.length = shots.length
      ∧ res.processing_summary.source_total_pages = md.pages.getD (shots.length : Int) := by
  simp only [process_document_stateless, hin, himg, hsetup, Bool.not_true,
    Bool.false_eq_true, if_false]
  obtain ⟨rs, hrs, hlen'⟩ :=
    mainPass_ok libs env.mainPageEnv shots _ fmt cfg key hmain
  rw [hrs]
  have hcond : (rs.isEmpty && decide (shots.length > 0)) = false := by
    cases hsh : shots with
    | nil =>
      rw [hsh] at hlen'
      simp
    | cons a t =>
      have hne : rs ≠ [] := by
        intro hrsnil
        rw [hrsnil, hsh] at hlen'
        simp at hlen'
      simp [List.isEmpty_iff, hne]
  simp only [hcond]
  refine ⟨aggregate_processing_results (intStr ts) ip.name rs md up, ?_, ?_, ?_, ?_⟩
  · rfl
  · exact aggregate_meta_eq _ _ _ _ _
  · rw [aggregate_pages_length, hlen']
  · rw [aggregate_source_total, hlen']

/-- C5 (counterexample): the claim asserts the document metadata always
includes at least a page-count field.  On a run whose metadata tool exits
non-zero while rasterization produces two pages, the job completes but the
metadata mapping embedded in the summary has no page-count key (only the
source-type tag); the fallback count lives in the summary's reported page
count instead. -/
theorem c5_counterexample :
    (process_document_stateless ⟨id, fun _ => .error (lit "nope")⟩
        { inputExists := true
          convertEnv := ⟨true, true, [], 0, [], [], true⟩
          metaEnv := ⟨true, 1, [], lit "boom"⟩
          parsedMeta := ⟨some 7, none⟩
          rasterEnv := ⟨true, true, [], 0, [], [],
            [lit "/j/screenshots/doc-1.png", lit "/j/screenshots/doc-2.png"]⟩
          metaPageEnv := fun _ => ⟨.notFound, fun _ => .error (lit "x")⟩
          mainPageEnv := fun _ => ⟨.notFound, fun _ => .error (lit "x")⟩ }
        ⟨lit "/in", lit "doc.docx"⟩ (lit "p") (lit "json") false {} (lit "k")
        (lit "/j") (lit "T") 5).map
      (fun r => r.processing_summary.pdf_metadata.pages) = Except.ok none := by
  rfl

/-- C5 (amended): when metadata extraction fails (the metadata tool exits
non-zero) but rasterization succeeds for a document input,
`process_document_stateless` still returns an `AggregatedResult`; the
metadata mapping then carries only the source-type tag — it has no
page-count key — and the summary's reported page count falls back to the
number of rendered pages. -/
theorem c5_metadata_failure_recovery (libs : PyLibs) (env : OrchEnv) (ip : PyPath)
    (up fmt : Str) (m : Bool) (cfg : AppSettings) (key jd tmpl : Str) (ts : Int)
    (hin : env.inputExists = true) (himg : isImageInput ip = false)
    (hc1 : env.convertEnv.inputExists = true) (hc2 : env.convertEnv.mkdirOk = true)
    (hc3 : env.convertEnv.returncode = 0) (hc4 : env.convertEnv.outputExistsAfter = true)
    (hm : env.metaEnv.returncode ≠ 0)
    (hr1 : env.rasterEnv.pdfExists = true) (hr2 : env.rasterEnv.mkdirOk = true)
    (hr3 : env.rasterEnv.globbedFiles ≠ [])
    (hmain : ∀ i path prompt, ∃ r,
        processSinglePage libs (env.mainPageEnv i) (i + 1) path prompt fmt cfg key
          = .ok r) :
    ∃ res, process_document_stateless libs env ip up fmt m cfg key jd tmpl ts
        = .ok res
      ∧ res.processing_summary.pdf_metadata = ⟨none, some (lit "document")⟩
      ∧ res.processing_summary.source_total_pages
          = (env.rasterEnv.globbedFiles.length : Int)
      ∧ res.pages.length = env.rasterEnv.globbedFiles.length := by
  have hsetup := documentSetup_eval env ip jd hc1 hc2 hc3 hc4 hr1 hr2 hr3
  rw [meta_fail_eval env.metaEnv _ hm] at hsetup
  simp only [Bool.false_eq_true, if_false] at hsetup
  have hslen : (env.rasterEnv.globbedFiles.insertionSort pngKeyLe).length
      = env.rasterEnv.globbedFiles.length :=
    (List.perm_insertionSort pngKeyLe env.rasterEnv.globbedFiles).length_eq
  obtain ⟨res, h1, h2, h3, h4⟩ := stateless_doc_ok libs env ip up fmt m cfg key jd
    tmpl ts _ _ hin himg hsetup hmain
  refine ⟨res, h1, h2, ?_, ?_⟩
  · rw [h4, h2] at *
    simp only [Option.getD]
    rw [hslen]
  · rw [h3, hslen]

/-- Witness for `c5_metadata_failure_recovery`: a concrete run with a
failing metadata tool and a two-page rasterization completes and reports
two pages. -/
theorem c5_metadata_failure_recovery_witness :
    ∃ res, process_document_stateless ⟨id, fun _ => .error (lit "nope")⟩
        { inputExists := true
          convertEnv := ⟨true, true, [], 0, [], [], true⟩
          metaEnv := ⟨true, 1, [], lit "boom"⟩
          parsedMeta := ⟨some 9, none⟩
          rasterEnv := ⟨true, true, [], 0, [], [], [lit "a-1.png", lit "a-2.png"]⟩
          metaPageEnv := fun _ => ⟨.notFound, fun _ => .error []⟩
          mainPageEnv := fun _ => ⟨.notFound, fun _ => .error []⟩ }
        ⟨lit "/in", lit "doc.docx"⟩ (lit "p") (lit "json") false {} (lit "k")
        (lit "/j") (lit "T") 5 = .ok res
      ∧ res.processing_summary.pdf_metadata = ⟨none, some (lit "document")⟩
      ∧ res.processing_summary.source_total_pages = (2 : Int)
      ∧ res.pages.length = 2 :=
  c5_metadata_failure_recovery ⟨id, fun _ => .error (lit "nope")⟩
    { inputExists := true
      convertEnv := ⟨true, true, [], 0, [], [], true⟩
      metaEnv := ⟨true, 1, [], lit "boom"⟩
      parsedMeta := ⟨some 9, none⟩
      rasterEnv := ⟨true, true, [], 0, [], [], [lit "a-1.png", lit "a-2.png"]⟩
      metaPageEnv := fun _ => ⟨.notFound, fun _ => .error []⟩
      mainPageEnv := fun _ => ⟨.notFound, fun _ => .error []⟩ }
    ⟨lit "/in", lit "doc.docx"⟩ (lit "p") (lit "json") false {} (lit "k")
    (lit "/j") (lit "T") 5 rfl rfl rfl rfl rfl rfl (by decide) rfl rfl
    (by decide) (fun i path prompt => ⟨_, rfl⟩)

/-- C8: the stateless orchestrator's behaviour is identical for every
value of the configured worker limit — `max_workers` is never consulted,
so the main pass launches one task per page with no gating by the limit
(contradicting the claimed bounded in-flight set). -/
theorem c8_max_workers_not_consulted (libs : PyLibs) (env : OrchEnv) (ip : PyPath)
    (up fmt : Str) (m : Bool) (cfg : AppSettings) (key jd tmpl : Str) (ts : Int)
    (w : Nat) :
    process_document_stateless libs env ip up fmt m
        { cfg with max_workers := w } key jd tmpl ts
      = process_document_stateless libs env ip up fmt m cfg key jd tmpl ts := rfl

/-- On an API failure the ResetData call reports `error_api` and no
response. -/
theorem call_error_inv (env : PageEnv) (prompt : Str) (cfg : AppSettings)
    (key : Str) (a : Option JsonVal) (b : Option PageProcessingStatus) (c : Str)
    (h : call_resetdata_openai_api env prompt cfg key = (a, b, some c)) :
    b = some .errorApi ∧ a = none := by
  unfold call_resetdata_openai_api at h
  split at h
  · simp only [Prod.mk.injEq] at h
    exact ⟨h.2.1.symm, h.1.symm⟩
  · split at h <;> simp only [Prod.mk.injEq] at h
    · exact ⟨h.2.1.symm, h.1.symm⟩
    · exact absurd h.2.2 (by simp)

/-- On success the ResetData call returns the normalized response built
from the completion text. -/
theorem call_ok_inv (env : PageEnv) (prompt : Str) (cfg : AppSettings)
    (key : Str) (a : Option JsonVal) (b : Option PageProcessingStatus)
    (h : call_resetdata_openai_api env prompt cfg key = (a, b, none)) :
    ∃ t, env.apiOutcome prompt = .ok t ∧ a = some (buildNormalizedResponse t) := by
  unfold call_resetdata_openai_api at h
  split at h
  · simp at h
  · split at h <;> simp only [Prod.mk.injEq] at h
    · exact absurd h.2.2 (by simp)
    · next t heq => exact ⟨t, heq, h.1.symm⟩

/-- The orchestrator's nested indexing recovers the completion text from
the normalized response. -/
theorem extract_build (t : Str) :
    extractCandidateText (buildNormalizedResponse t) = some t := rfl

/-- Any parse-error return of `parse_and_validate_ai_output` carries the
original raw text and the parse-error status. -/
theorem parse_some_err_inv (libs : PyLibs) (t : Str) (n : Nat) (fmt : Str)
    (v : JsonVal) (st : Option PageProcessingStatus) (e : Str)
    (h : parse_and_validate_ai_output libs t n fmt = (v, st, some e)) :
    v = .jstr t ∧ st = some .errorParsing := by
  unfold parse_and_validate_ai_output at h
  dsimp only at h
  split at h
  · split at h
    · simp only [Prod.mk.injEq] at h
      exact ⟨h.1.symm, h.2.1.symm⟩
    · split at h <;> simp only [Prod.mk.injEq] at h
      · exact absurd h.2.2 (by simp)
      · exact ⟨h.1.symm, h.2.1.symm⟩
  · simp only [Prod.mk.injEq] at h
    exact absurd h.2.2 (by simp)

/-- Any error-free return of `parse_and_validate_ai_output` is either the
raw text itself (raw format) or a value produced by the JSON parser. -/
theorem parse_none_inv (libs : PyLibs) (t : Str) (n : Nat) (fmt : Str)
    (v : JsonVal) (st : Option PageProcessingStatus)
    (h : parse_and_validate_ai_output libs t n fmt = (v, st, none)) :
    v = .jstr t
    ∨ libs.jsonLoads (libs.htmlUnescape (cleanJsonText t)) = .ok v := by
  unfold parse_and_validate_ai_output at h
  dsimp only at h
  split at h
  · split at h
    · simp at h
    · split at h <;> simp only [Prod.mk.injEq] at h
      · next heq =>
        right
        rw [h.1] at heq
        exact heq
      · simp at h
  · simp only [Prod.mk.injEq] at h
    exact Or.inl h.1.symm

/-- pydantic stores `None` for the `data` field exactly when the parsed
value was JSON `null`. -/
theorem toPageDataField_none_inv (v : JsonVal) (h : toPageDataField v = .ok none) :
    v = .jnull := by
  cases v <;> simp [toPageDataField] at h ⊢

/-- C7 (amended): every outcome produced by the per-page unit has one of
the statuses success / image-encoding error / API error / parse error;
image-encoding and API errors carry an error message and neither payload
nor raw text; parse errors always carry the raw text in `raw_response`
together with an error message; success outcomes carry no error fields,
and their payload is absent only when the model's structured answer parsed
to JSON `null`. -/
theorem c7_page_outcome_invariant (libs : PyLibs) (env : PageEnv) (n : Nat)
    (path prompt fmt key : Str) (cfg : AppSettings) (r : PageProcessingResult)
    (h : processSinglePage libs env n path prompt fmt cfg key = .ok r) :
    (r.status = .success ∨ r.status = .errorImageEncoding ∨ r.status = .errorApi
      ∨ r.status = .errorParsing)
    ∧ ((r.status = .errorImageEncoding ∨ r.status = .errorApi) →
        r.data = none ∧ r.raw_response = none ∧ r.error_message.isSome = true)
    ∧ (r.status = .errorParsing →
        r.raw_response.isSome = true ∧ r.error_message.isSome = true)
    ∧ (r.status = .success →
        r.error_message = none ∧ r.raw_response = none
        ∧ (r.data = none → ∃ s, libs.jsonLoads s = .ok JsonVal.jnull)) := by
  unfold processSinglePage at h
  dsimp only at h
  split at h
  · -- image-encoding failure
    injection h with h'
    subst h'
    simp
  · -- encoding succeeded; split on the API call result
    split at h
    · -- API error branch
      next a es em heq =>
      obtain ⟨hes, _⟩ := call_error_inv env prompt cfg key a es em heq
      injection h with h'
      subst h'
      simp [hes]
    · -- API success branch
      next rj snd heq =>
      obtain ⟨t, _, hrj⟩ := call_ok_inv env prompt cfg key rj snd heq
      split at h
      · -- empty completion text
        injection h with h'
        subst h'
        subst hrj
        simp
      · -- non-empty text: split on the parse result
        split at h
        · -- parse error
          next rd vs ve heqp =>
          obtain ⟨hrd, hvs⟩ := parse_some_err_inv libs _ n _ rd vs ve heqp
          split at h
          · injection h with h'
            subst h'
            simp [hvs]
          · exact absurd h (by simp)
        · -- parse success
          next rd snd2 heqp =>
          split at h
          · next d hd =>
            injection h with h'
            subst h'
            refine ⟨Or.inl rfl, by simp, by simp, fun _ => ⟨rfl, rfl, fun hdn => ?_⟩⟩
            subst hdn
            have hnull : rd = .jnull := toPageDataField_none_inv rd hd
            subst hnull
            rcases parse_none_inv libs _ n _ _ snd2 heqp with hs | hload
            · exact absurd hs (by simp)
            · exact ⟨_, hload⟩
          · exact absurd h (by simp)

/-- C7 (counterexample): the claimed invariant fails on the code twice.
An image-encoding failure produces an outcome with no raw text (the claim
says image-encoding errors carry the unparsed raw text), and a structured
answer that parses to JSON `null` produces a success outcome with no
payload (the claim says success always carries a payload). -/
theorem c7_counterexample :
    ¬ (∀ r, processSinglePage ⟨id, fun _ => .error []⟩
          ⟨.notFound, fun _ => .error (lit "x")⟩ 1
          (lit "/s/p-1.png") (lit "u") (lit "json") {} (lit "k") = .ok r →
        pageOutcomeClaimInvariant r)
    ∧ ¬ (∀ r, processSinglePage ⟨id, fun _ => .ok .jnull⟩
          ⟨.ok [1], fun _ => .ok (lit "null")⟩ 1
          (lit "/s/p-1.png") (lit "u") (lit "json") {} (lit "k") = .ok r →
        pageOutcomeClaimInvariant r) := by
  constructor
  · intro hall
    have hinv := hall
      { page_number := 1, status := .errorImageEncoding,
        error_message := some (lit
          "Failed to encode image: Image file not found for encoding: /s/p-1.png") }
      rfl
    have hraw := hinv.2 (by simp [pageOutcomeClaimInvariant] at hinv ⊢)
    simp at hraw
  · intro hall
    have hinv := hall { page_number := 1, status := .success } rfl
    have hdata := hinv.1 (Or.inl rfl)
    simp at hdata

/-- Witness for `c7_page_outcome_invariant`: a raw-text run whose model
call succeeds yields a success outcome with the verbatim text as payload
and no error fields. -/
theorem c7_page_outcome_invariant_witness :
    (PageProcessingStatus.success = PageProcessingStatus.success
        ∨ PageProcessingStatus.success = PageProcessingStatus.errorImageEncoding
        ∨ PageProcessingStatus.success = PageProcessingStatus.errorApi
        ∨ PageProcessingStatus.success = PageProcessingStatus.errorParsing)
    ∧ ((PageProcessingStatus.success = PageProcessingStatus.errorImageEncoding
        ∨ PageProcessingStatus.success = PageProcessingStatus.errorApi) →
        some (PageData.str (lit "hello")) = none ∧ (none : Option Str) = none
          ∧ (none : Option Str).isSome = true)
    ∧ (PageProcessingStatus.success = PageProcessingStatus.errorParsing →
        (none : Option Str).isSome = true ∧ (none : Option Str).isSome = true)
    ∧ (PageProcessingStatus.success = PageProcessingStatus.success →
        (none : Option Str) = none ∧ (none : Option Str) = none
        ∧ (some (PageData.str (lit "hello")) = none →
            ∃ s, (⟨id, fun _ => .error []⟩ : PyLibs).jsonLoads s
              = .ok JsonVal.jnull)) := by
  have h := c7_page_outcome_invariant ⟨id, fun _ => .error []⟩
    ⟨.ok [1], fun _ => .ok (lit "hello")⟩ 1 (lit "/s/p-1.png") (lit "u")
    (lit "text") (lit "k") {}
    { page_number := 1, status := .success, data := some (.str (lit "hello")) }
    rfl
  exact h

/-- A page task's outcome depends on its environment only through the
file-read outcome and the API behaviour at the one prompt it is sent. -/
theorem processSinglePage_congr (libs : PyLibs) (e e' : PageEnv) (n : Nat)
    (path prompt fmt : Str) (cfg : AppSettings) (key : Str)
    (h1 : e'.readOutcome = e.readOutcome)
    (h2 : e'.apiOutcome prompt = e.apiOutcome prompt) :
    processSinglePage libs e' n path prompt fmt cfg key
      = processSinglePage libs e n path prompt fmt cfg key := by
  unfold processSinglePage call_resetdata_openai_api
  rw [h1, h2]

/-- The pre-pass consults only the page environments of the first
`min(pageCount, MAX_META_PAGES)` pages, and each only at the meta-prompt
template. -/
theorem metaPass_congr (libs : PyLibs) (f f' : Nat → PageEnv)
    (shots : List Str) (cfg : AppSettings) (key tmpl : Str)
    (h : ∀ i, i < min shots.length MAX_META_PAGES →
        (f' i).readOutcome = (f i).readOutcome
        ∧ (f' i).apiOutcome tmpl = (f i).apiOutcome tmpl) :
    metaPass libs f' shots cfg key tmpl = metaPass libs f shots cfg key tmpl := by
  unfold metaPass
  apply List.map_congr_left
  intro i hi
  have hi' := List.mem_range.mp hi
  exact processSinglePage_congr libs (f i) (f' i) (i + 1) (shots.getD i [])
    tmpl (lit "json") cfg key (h i hi').1 (h i hi').2

/-- C6: for a document-input run that reaches the main pass with the
context pre-pass requested: (1) the run's outcome depends on the pre-pass
page environments only for the first `min(pageCount, 3)` pages and only
through their behaviour at the fixed meta-prompt template — pages beyond
that bound and prompts other than the template (in particular the user
prompt) are never consulted; (2) pre-pass failures never abort the job:
whenever every main-pass page task settles, the run returns a result, for
arbitrary pre-pass outcomes; (3) when no pre-pass page yields a
successful structured object, the run equals the run with the pre-pass
disabled, i.e. the main pass uses the user prompt unmodified. -/
theorem c6_context_prepass (libs : PyLibs) (env : OrchEnv) (ip : PyPath)
    (up fmt : Str) (cfg : AppSettings) (key jd tmpl : Str) (ts : Int)
    (hin : env.inputExists = true) (himg : isImageInput ip = false)
    (hc1 : env.convertEnv.inputExists = true) (hc2 : env.convertEnv.mkdirOk = true)
    (hc3 : env.convertEnv.returncode = 0) (hc4 : env.convertEnv.outputExistsAfter = true)
    (hr1 : env.rasterEnv.pdfExists = true) (hr2 : env.rasterEnv.mkdirOk = true)
    (hr3 : env.rasterEnv.globbedFiles ≠ []) :
    (∀ f' : Nat → PageEnv,
        (∀ i, i < min (env.rasterEnv.globbedFiles.insertionSort pngKeyLe).length
              MAX_META_PAGES →
            (f' i).readOutcome = (env.metaPageEnv i).readOutcome
            ∧ (f' i).apiOutcome tmpl = (env.metaPageEnv i).apiOutcome tmpl) →
        process_document_stateless libs { env with metaPageEnv := f' } ip up fmt
            true cfg key jd tmpl ts
          = process_document_stateless libs env ip up fmt true cfg key jd tmpl ts)
    ∧ ((∀ i path prompt, ∃ r, processSinglePage libs (env.mainPageEnv i) (i + 1)
            path prompt fmt cfg key = .ok r) →
        ∃ res, process_document_stateless libs env ip up fmt true cfg key jd tmpl ts
          = .ok res)
    ∧ (successfulMetaResults (metaPass libs env.metaPageEnv
          (env.rasterEnv.globbedFiles.insertionSort pngKeyLe) cfg key tmpl) = [] →
        process_document_stateless libs env ip up fmt true cfg key jd tmpl ts
          = process_document_stateless libs env ip up fmt false cfg key jd tmpl ts) := by
  obtain ⟨ie, ce, me, pm, re, mpe, mne⟩ := env
  dsimp only at hin hc1 hc2 hc3 hc4 hr1 hr2 hr3 ⊢
  subst hin
  have hsetup := documentSetup_eval ⟨true, ce, me, pm, re, mpe, mne⟩ ip jd
    hc1 hc2 hc3 hc4 hr1 hr2 hr3
  refine ⟨?_, ?_, ?_⟩
  · intro f' hagree
    have hsetup' := documentSetup_eval ⟨true, ce, me, pm, re, f', mne⟩ ip jd
      hc1 hc2 hc3 hc4 hr1 hr2 hr3
    simp only [process_document_stateless, himg, hsetup, hsetup',
      Bool.not_true, Bool.false_eq_true, if_false]
    rw [metaPass_congr libs mpe f'
      (re.globbedFiles.insertionSort pngKeyLe) cfg key tmpl hagree]
  · intro hmain
    obtain ⟨res, h1, _⟩ := stateless_doc_ok libs ⟨true, ce, me, pm, re, mpe, mne⟩
      ip up fmt true cfg key jd tmpl ts _ _ rfl himg hsetup hmain
    exact ⟨res, h1⟩
  · intro hnone
    simp only [process_document_stateless, himg, hsetup,
      Bool.not_true, Bool.false_eq_true, if_false]
    rw [hnone]
    simp [synthMetaContext]

/-- Witness for `c6_context_prepass`: on a concrete four-page document
whose three scanned pre-pass pages all fail, the run with the pre-pass
requested equals the run with it disabled — the main pass sees the
unmodified user prompt. -/
theorem c6_context_prepass_witness :
    process_document_stateless ⟨id, fun _ => .error (lit "nope")⟩
        { inputExists := true
          convertEnv := ⟨true, true, [], 0, [], [], true⟩
          metaEnv := ⟨true, 0, lit "Pages: 4", []⟩
          parsedMeta := ⟨some 4, none⟩
          rasterEnv := ⟨true, true, [], 0, [], [],
            [lit "d-1.png", lit "d-2.png", lit "d-3.png", lit "d-4.png"]⟩
          metaPageEnv := fun _ => ⟨.notFound, fun _ => .error (lit "m")⟩
          mainPageEnv := fun _ => ⟨.notFound, fun _ => .error (lit "x")⟩ }
        ⟨lit "/in", lit "doc.docx"⟩ (lit "p") (lit "json") true {} (lit "k")
        (lit "/j") (lit "T") 3
      = process_document_stateless ⟨id, fun _ => .error (lit "nope")⟩
        { inputExists := true
          convertEnv := ⟨true, true, [], 0, [], [], true⟩
          metaEnv := ⟨true, 0, lit "Pages: 4", []⟩
          parsedMeta := ⟨some 4, none⟩
          rasterEnv := ⟨true, true, [], 0, [], [],
            [lit "d-1.png", lit "d-2.png", lit "d-3.png", lit "d-4.png"]⟩
          metaPageEnv := fun _ => ⟨.notFound, fun _ => .error (lit "m")⟩
          mainPageEnv := fun _ => ⟨.notFound, fun _ => .error (lit "x")⟩ }
        ⟨lit "/in", lit "doc.docx"⟩ (lit "p") (lit "json") false {} (lit "k")
        (lit "/j") (lit "T") 3 :=
  (c6_context_prepass ⟨id, fun _ => .error (lit "nope")⟩
      { inputExists := true
        convertEnv := ⟨true, true, [], 0, [], [], true⟩
        metaEnv := ⟨true, 0, lit "Pages: 4", []⟩
        parsedMeta := ⟨some 4, none⟩
        rasterEnv := ⟨true, true, [], 0, [], [],
          [lit "d-1.png", lit "d-2.png", lit "d-3.png", lit "d-4.png"]⟩
        metaPageEnv := fun _ => ⟨.notFound, fun _ => .error (lit "m")⟩
        mainPageEnv := fun _ => ⟨.notFound, fun _ => .error (lit "x")⟩ }
      ⟨lit "/in", lit "doc.docx"⟩ (lit "p") (lit "json") {} (lit "k")
      (lit "/j") (lit "T") 3 rfl rfl rfl rfl rfl rfl rfl rfl
      (by decide)).2.2 rfl

end EveryPage
